import Mathlib

/-!
Shallow embedding of the seven-healer-backend service layer (FastAPI +
mongoengine) and proofs about its authentication, slug, blog-content,
job-application and pagination logic.

Strings from the Python source are modelled as lists of character codes
(`List Nat`); the document store is modelled as an in-memory list of
records, and handlers are modelled as pure functions returning an
`Except`-style result together with the resulting store state.
-/

namespace SevenHealer

/-- Convert a Lean string literal to the character-code list model. -/
def s2c (s : String) : List Nat :=
  s.toList.map Char.toNat

/-- Python `str.lower` on a single character code (ASCII fragment). -/
def lowC (c : Nat) : Nat :=
  if 65 ≤ c ∧ c ≤ 90 then c + 32 else c

/-- Python `str.lower` on a string. -/
def pyLower (s : List Nat) : List Nat :=
  s.map lowC

/-- Modelled from the spec: the role enumeration `UserRoles` of module
`app.enum`, which is not among the provided sources; the spec records the
roles as `admin` and `user`. -/
inductive UserRoles where
  | admin
  | user
deriving DecidableEq

/-- Modelled from the spec: the string value of each role
(`admin` or `user`), as used by `UserRoles.ADMIN.value` in the source. -/
def UserRoles.value : UserRoles → List Nat
  | .admin => s2c "admin"
  | .user => s2c "user"

/-- A stored `Users` document (app/models/users.py). -/
structure UserRec where
  id : List Nat
  first_name : List Nat
  last_name : List Nat
  email : List Nat
  password : List Nat
  phone : List Nat
  role : UserRoles
  is_active : Bool
  created_at : Nat
  updated_at : Nat
deriving DecidableEq

/-- The configuration constants consumed by the auth layer
(app/core/config.py). -/
structure Config where
  SUPERUSER_ID : List Nat
  SUPERUSER_EMAIL : List Nat
  SUPERUSER_PASSWORD : List Nat
deriving DecidableEq

/-- The `BaseConfig` default values from app/core/config.py. -/
def defaultConfig : Config where
  SUPERUSER_ID := s2c "superuser123"
  SUPERUSER_EMAIL := s2c "admin@sevenhealerconsultants.in"
  SUPERUSER_PASSWORD := s2c "admin123"

/-- The in-memory `superUser` dict of app/utils.py (lines 35-41): id and
email come from configuration, the profile is fixed, the role is admin. -/
structure SuperUserRec where
  id : List Nat
  firstName : List Nat
  lastName : List Nat
  name : List Nat
  role : UserRoles
  email : List Nat
deriving DecidableEq

/-- The `superUser` value built from the configuration (app/utils.py). -/
def superUser (cfg : Config) : SuperUserRec where
  id := cfg.SUPERUSER_ID
  firstName := s2c "Super"
  lastName := s2c "User"
  name := s2c "SuperUser"
  role := UserRoles.admin
  email := cfg.SUPERUSER_EMAIL

/-- The identity resolved by authentication: either the non-persisted
superuser dict or a stored `Users` document (the `isinstance(user, dict)`
pattern in the handlers). -/
inductive AuthUser where
  | superuser (su : SuperUserRec)
  | stored (u : UserRec)
deriving DecidableEq

/-- `Users.objects(email=...).first()`: first stored user with the given
email. -/
def usersFirstByEmail (db : List UserRec) (email : List Nat) : Option UserRec :=
  db.find? (fun u => u.email == email)

/-- `authenticate_user` (app/utils.py lines 63-79): superuser credentials
are checked first against the configuration; otherwise the user is looked
up by lowercased email and must be active with a verifying password.
`verify` abstracts `passlib`'s bcrypt verification. -/
def authenticate_user (cfg : Config) (verify : List Nat → List Nat → Bool)
    (db : List UserRec) (email password : List Nat) : Option AuthUser :=
  if email = cfg.SUPERUSER_EMAIL ∧ password = cfg.SUPERUSER_PASSWORD then
    some (AuthUser.superuser (superUser cfg))
  else
    match usersFirstByEmail db (pyLower email) with
    | none => none
    | some user =>
      if !user.is_active then none
      else if verify password user.password then some (AuthUser.stored user)
      else none

/-- A bearer token as issued by `create_access_token` (app/utils.py):
the claim payload is `{sub: subject, exp: ...}`; only the subject is
relevant to the verified claims. -/
structure AccessToken where
  sub : List Nat
deriving DecidableEq

/-- `create_access_token` (app/utils.py lines 51-61), restricted to the
subject claim. -/
def create_access_token (subject : List Nat) : AccessToken where
  sub := subject

/-- `UserResponseSchema` (app/schemas/auth.py lines 18-27). The schema has
no password field. -/
structure UserResponseSchema where
  id : List Nat
  first_name : List Nat
  last_name : List Nat
  email : List Nat
  phone : List Nat
  role : UserRoles
  is_active : Bool
  created_at : Nat
  updated_at : Nat
deriving DecidableEq

/-- `TokenResponseSchema` (app/schemas/auth.py lines 29-32). -/
structure TokenResponseSchema where
  access_token : AccessToken
  token_type : List Nat
  user : UserResponseSchema
deriving DecidableEq

/-- The HTTP errors raised by the `login` handler. -/
inductive LoginError where
  | unauthorized401
  | forbidden403
deriving DecidableEq

/-- The user response built by `login` for the superuser branch
(app/services/auth.py lines 139-149): fixed profile names, empty phone,
admin role, active, timestamps from `datetime.utcnow()`. -/
def superuserLoginResponse (cfg : Config) (now : Nat) : UserResponseSchema where
  id := cfg.SUPERUSER_ID
  first_name := s2c "Super"
  last_name := s2c "User"
  email := cfg.SUPERUSER_EMAIL
  phone := s2c ""
  role := UserRoles.admin
  is_active := true
  created_at := now
  updated_at := now

/-- The user response built from a stored user (app/services/auth.py
lines 151-161, same shape as lines 87-97). -/
def userResponseOf (u : UserRec) : UserResponseSchema where
  id := u.id
  first_name := u.first_name
  last_name := u.last_name
  email := u.email
  phone := u.phone
  role := u.role
  is_active := u.is_active
  created_at := u.created_at
  updated_at := u.updated_at

/-- The `login` handler (app/services/auth.py lines 107-175):
authenticates, rejects a missing identity with 401, rejects a stored
identity that is not an active admin with 403, then issues a token whose
subject is the identity's email. -/
def login (cfg : Config) (verify : List Nat → List Nat → Bool)
    (db : List UserRec) (now : Nat) (username password : List Nat) :
    Except LoginError TokenResponseSchema :=
  match authenticate_user cfg verify db username password with
  | none => Except.error LoginError.unauthorized401
  | some (AuthUser.superuser su) =>
      Except.ok
        { access_token := create_access_token su.email
          token_type := s2c "bearer"
          user := superuserLoginResponse cfg now }
  | some (AuthUser.stored user) =>
      if user.role ≠ UserRoles.admin ∨ user.is_active = false then
        Except.error LoginError.forbidden403
      else
        Except.ok
          { access_token := create_access_token user.email
            token_type := s2c "bearer"
            user := userResponseOf user }

/-- Python `\s` on a character code (ASCII fragment of the class). -/
def isSpaceCode (c : Nat) : Bool :=
  c == 32 || c == 9 || c == 10 || c == 13 || c == 11 || c == 12

/-- Head of a string is a character other than `@` (64). -/
def headNonAt : List Nat → Bool
  | [] => false
  | c :: _ => !(c == 64)

/-- Matcher for the tail part `[^\w]`-free pattern `[^@]+\.[^@]+` of the
signup email regex: scans for a literal dot (46) preceded by at least one
`@`-free character and followed by an `@`-free character, with every
scanned character `@`-free (backtracking existence semantics). -/
def emailDotSearch (seen : Nat) : List Nat → Bool
  | [] => false
  | c :: rest =>
    (decide (1 ≤ seen) && c == 46 && headNonAt rest) ||
    (!(c == 64) && emailDotSearch (seen + 1) rest)

/-- Matcher for the head of the signup email regex `[^@]+@...`: scans for
the `@` (64) preceded by at least one `@`-free character. -/
def emailAtSearch (seen : Nat) : List Nat → Bool
  | [] => false
  | c :: rest =>
    (decide (1 ≤ seen) && c == 64 && emailDotSearch 0 rest) ||
    (!(c == 64) && emailAtSearch (seen + 1) rest)

/-- `re.match(r"[^@]+@[^@]+\.[^@]+", email)` as used by `signup`
(app/services/auth.py line 49): prefix-match existence. -/
def emailRegexMatch (s : List Nat) : Bool :=
  emailAtSearch 0 s

/-- The character class `[\d\s\-\(\)]` of the signup phone regex. -/
def phoneClassCode (c : Nat) : Bool :=
  (decide (48 ≤ c) && decide (c ≤ 57)) || isSpaceCode c ||
    c == 45 || c == 40 || c == 41

/-- `re.match(r"^\+?[\d\s\-\(\)]{10,15}$", phone)` as used by `signup`
(app/services/auth.py line 56): an optional leading `+` (43) followed by
10 to 15 characters of the class, consuming the whole string. -/
def phoneRegexMatch (s : List Nat) : Bool :=
  let t := match s with
    | 43 :: rest => rest
    | _ => s
  t.all phoneClassCode && decide (10 ≤ t.length) && decide (t.length ≤ 15)

/-- `UserSignupSchema` (app/schemas/auth.py lines 6-12) after parsing; the
`role` field carries the pydantic default when the request omitted it. -/
structure UserSignupSchema where
  first_name : List Nat
  last_name : List Nat
  email : List Nat
  password : List Nat
  phone : List Nat
  role : UserRoles
deriving DecidableEq

/-- Pydantic parsing of the `role` field of `UserSignupSchema`: the
declared default `UserRoles.USER` applies when the field is omitted. -/
def parseSignupRole (provided : Option UserRoles) : UserRoles :=
  provided.getD UserRoles.user

/-- The HTTP errors raised by the `signup` handler. -/
inductive SignupError where
  | invalidEmail400
  | invalidPhone400
  | emailExists400
deriving DecidableEq

/-- The `signup` handler (app/services/auth.py lines 42-105): validates
the email and phone formats, rejects an already-registered email, then
stores a new user with the hashed password, the caller-supplied role and
`is_active=False`, and returns the public user shape. `hash` abstracts
bcrypt hashing, `newId` the generated uuid, `now` `datetime.utcnow()`.
Returns the response together with the resulting user collection. -/
def signup (hash : List Nat → List Nat) (db : List UserRec)
    (newId : List Nat) (now : Nat) (d : UserSignupSchema) :
    Except SignupError (List UserRec × UserResponseSchema) :=
  if !emailRegexMatch d.email then
    Except.error SignupError.invalidEmail400
  else if !phoneRegexMatch d.phone then
    Except.error SignupError.invalidPhone400
  else
    match usersFirstByEmail db (pyLower d.email) with
    | some _ => Except.error SignupError.emailExists400
    | none =>
      let newUser : UserRec :=
        { id := newId
          first_name := d.first_name
          last_name := d.last_name
          email := pyLower d.email
          password := hash d.password
          phone := d.phone
          role := d.role
          is_active := false
          created_at := now
          updated_at := now }
      Except.ok (db ++ [newUser], userResponseOf newUser)

/-- The decoded state of a presented bearer token, abstracting
`jwt.decode`: either the decode raised `JWTError` (invalid signature or
expired), or it produced a payload whose `sub` claim may be absent. -/
inductive JwtDecoded where
  | jwtError
  | payload (sub : Option (List Nat))
deriving DecidableEq

/-- `get_current_user` (app/utils.py lines 81-97): on a decoded payload,
a missing subject yields no identity; a subject equal to the configured
superuser email yields the superuser; otherwise the stored user with that
exact email (not lowercased here) is returned, with no check of
`is_active`. -/
def get_current_user (cfg : Config) (db : List UserRec) (tok : JwtDecoded) :
    Option AuthUser :=
  match tok with
  | JwtDecoded.jwtError => none
  | JwtDecoded.payload none => none
  | JwtDecoded.payload (some email) =>
    if email = cfg.SUPERUSER_EMAIL then
      some (AuthUser.superuser (superUser cfg))
    else
      (usersFirstByEmail db email).map AuthUser.stored

/-- `validate_admin_permissions` (app/services/auth.py lines 221-227):
true for the superuser dict, true for a stored user whose role is admin;
the active flag is not consulted. -/
def validate_admin_permissions (current_user : AuthUser) : Bool :=
  match current_user with
  | AuthUser.superuser _ => true
  | AuthUser.stored u => u.role = UserRoles.admin

/-- Python `\w` on a character code (ASCII fragment of the class):
letters, digits and underscore (95). -/
def isWordCode (c : Nat) : Bool :=
  decide ((48 ≤ c ∧ c ≤ 57) ∨ (65 ≤ c ∧ c ≤ 90) ∨ (97 ≤ c ∧ c ≤ 122) ∨ c = 95)

/-- The character class kept by the first substitution of `generate_slug`:
the complement class `[^\w\s-]` is deleted, so word characters, whitespace
and the hyphen (45) survive. -/
def keepCode (c : Nat) : Bool :=
  isWordCode c || isSpaceCode c || c == 45

/-- The character class `[-\s]` collapsed by the second substitution of
`generate_slug`. -/
def isDashSpace (c : Nat) : Bool :=
  c == 45 || isSpaceCode c

/-- `re.sub(r"[-\s]+", "-", s)`: every maximal run of hyphens and
whitespace becomes a single hyphen; `prev` records whether the previous
character belonged to such a run. -/
def collapseAux (prev : Bool) : List Nat → List Nat
  | [] => []
  | c :: rest =>
    if isDashSpace c then
      if prev then collapseAux true rest else 45 :: collapseAux true rest
    else c :: collapseAux false rest

/-- Leading part of Python `str.strip("-")`. -/
def dropLeadingDashes (s : List Nat) : List Nat :=
  s.dropWhile (fun c => c == 45)

/-- Trailing part of Python `str.strip("-")`. -/
def dropTrailingDashes : List Nat → List Nat
  | [] => []
  | c :: rest =>
    if (dropTrailingDashes rest).isEmpty && c == 45 then []
    else c :: dropTrailingDashes rest

/-- Python `s.strip("-")`. -/
def pyStripDashes (s : List Nat) : List Nat :=
  dropTrailingDashes (dropLeadingDashes s)

/-- `generate_slug` (app/services/blog.py lines 22-26): lowercase, delete
characters outside `[\w\s-]`, collapse `[-\s]` runs to single hyphens,
strip leading and trailing hyphens. -/
def generate_slug (title : List Nat) : List Nat :=
  pyStripDashes (collapseAux false ((pyLower title).filter keepCode))

/-- Specification predicate: the head characters `c, d` are not both
hyphens (no adjacent hyphen pair starts here). -/
def pairOk (c : Nat) : List Nat → Bool
  | [] => true
  | d :: _ => !(c == 45 && d == 45)

/-- Specification predicate: the string contains no whitespace and no two
adjacent hyphens — the shape produced by the collapsing substitution of
`generate_slug`. -/
def collapsedB : List Nat → Bool
  | [] => true
  | c :: rest => !isSpaceCode c && pairOk c rest && collapsedB rest

/-- Specification predicate: the string is empty or starts with a
character outside the class `[-\s]`. -/
def headNotDS : List Nat → Bool
  | [] => true
  | c :: _ => !isDashSpace c

/-- Specification predicate: the string is empty or starts with a
character other than the hyphen. -/
def headNot45 : List Nat → Bool
  | [] => true
  | c :: _ => !(c == 45)

/-- An embedded `ContentSection` document (app/models/blog.py). -/
structure ContentSection where
  heading : List Nat
  description : List Nat
  sub_sections : List (List Nat)
deriving DecidableEq

/-- A stored `Blog` document (app/models/blog.py). -/
structure Blog where
  id : List Nat
  title : List Nat
  slug : List Nat
  excerpt : List Nat
  content : List ContentSection
  image : Option (List Nat)
  author : List Nat
  author_bio : Option (List Nat)
  author_image : Option (List Nat)
  published_at : Nat
  tags : List (List Nat)
  is_published : List Nat
  created_at : Nat
  updated_at : Nat
deriving DecidableEq

/-- Little-endian decimal digits of a natural number, with explicit fuel
(the fuel `n` itself always suffices). -/
def revDigitsF : Nat → Nat → List Nat
  | 0, _ => []
  | fuel + 1, n => if n = 0 then [] else n % 10 :: revDigitsF fuel (n / 10)

/-- Value of a little-endian decimal digit list. -/
def ofRevDigits : List Nat → Nat
  | [] => 0
  | d :: ds => d + 10 * ofRevDigits ds

/-- Python decimal rendering of a positive counter (f-string `{counter}`),
as character codes. -/
def natStr (n : Nat) : List Nat :=
  (revDigitsF n n).reverse.map (fun d => 48 + d)

/-- The candidate slug tried at loop iteration `k` of
`ensure_unique_slug`: the original slug at `k = 0`, then
`f"{original_slug}-{counter}"` with `counter = k`. -/
def slugCandidate (orig : List Nat) (k : Nat) : List Nat :=
  if k = 0 then orig else orig ++ 45 :: natStr k

/-- `Blog.objects(slug=slug)` with the optional `id__ne=exclude_id`
filter of `ensure_unique_slug`: is the slug taken by a blog other than
the excluded one. -/
def blogSlugTaken (blogs : List Blog) (exclude_id : Option (List Nat))
    (slug : List Nat) : Bool :=
  ((blogs.filter (fun b =>
      match exclude_id with
      | none => true
      | some i => !(b.id == i))).find? (fun b => b.slug == slug)).isSome

/-- The `while True` loop of `ensure_unique_slug`, with explicit fuel:
try candidate `k`; on a collision move to candidate `k + 1`. -/
def ensureUniqueSlugAux (taken : List Nat → Bool) (orig : List Nat) :
    Nat → Nat → List Nat
  | 0, k => slugCandidate orig k
  | fuel + 1, k =>
    if taken (slugCandidate orig k) then ensureUniqueSlugAux taken orig fuel (k + 1)
    else slugCandidate orig k

/-- `ensure_unique_slug` (app/services/blog.py lines 28-42): starting from
the given slug, append `-1`, `-2`, ... until no other blog holds the
candidate. Fuel `blogs.length + 1` always suffices because at most
`blogs.length` distinct slugs are taken. -/
def ensure_unique_slug (blogs : List Blog) (slug : List Nat)
    (exclude_id : Option (List Nat)) : List Nat :=
  ensureUniqueSlugAux (blogSlugTaken blogs exclude_id) slug (blogs.length + 1) 0

/-- Case-insensitive heading comparison used by
`Blog.get_content_section` (app/models/blog.py lines 88-93). -/
def headingMatches (query : List Nat) (s : ContentSection) : Bool :=
  pyLower s.heading == pyLower query

/-- `Blog.get_content_section`: first section whose heading matches
case-insensitively. -/
def get_content_section (b : Blog) (heading : List Nat) : Option ContentSection :=
  b.content.find? (headingMatches heading)

/-- In-place mutation of the first case-insensitively matching section. -/
def updateFirstSection (heading : List Nat) (f : ContentSection → ContentSection) :
    List ContentSection → List ContentSection
  | [] => []
  | s :: rest =>
    if headingMatches heading s then f s :: rest
    else s :: updateFirstSection heading f rest

/-- `Blog.update_content_section` (app/models/blog.py lines 95-104):
returns False leaving the blog unchanged when no section heading matches;
otherwise overwrites the provided fields of the first match. -/
def update_content_section (b : Blog) (heading : List Nat)
    (new_description : Option (List Nat))
    (new_sub_sections : Option (List (List Nat))) : Bool × Blog :=
  match get_content_section b heading with
  | none => (false, b)
  | some _ =>
    (true,
      { b with
          content := updateFirstSection heading
            (fun s =>
              { s with
                  description := new_description.getD s.description
                  sub_sections := new_sub_sections.getD s.sub_sections })
            b.content })

/-- `ContentSectionUpdateSchema` (app/schemas/blog.py). -/
structure ContentSectionUpdateSchema where
  heading : List Nat
  description : Option (List Nat)
  sub_sections : Option (List (List Nat))
  new_heading : Option (List Nat)
deriving DecidableEq

/-- The admin check used inline by the blog handlers: superuser dict, or
`current_user.role.value == 'admin'`. -/
def blogAdminCheck (current_user : AuthUser) : Bool :=
  match current_user with
  | AuthUser.superuser _ => true
  | AuthUser.stored u => u.role.value == s2c "admin"

/-- The HTTP errors raised by the blog content-section update handler. -/
inductive BlogUpdateError where
  | forbidden403
  | blogNotFound404
  | sectionNotFound404
deriving DecidableEq

/-- `Blog.save` (app/models/blog.py lines 38-41) composed with the
document write: refresh `updated_at`, then replace the stored document. -/
def saveBlog (blogs : List Blog) (b : Blog) (now : Nat) : List Blog :=
  blogs.map (fun x => if x.id == b.id then { b with updated_at := now } else x)

/-- The `update_content_section` route handler (app/services/blog.py
lines 562-617): admin gate, blog lookup, section update (404 before any
save when the heading is absent), optional heading rename, save. Returns
the handler outcome together with the resulting blog collection. -/
def updateContentSectionHandler (current_user : AuthUser) (blogs : List Blog)
    (blog_id : List Nat) (d : ContentSectionUpdateSchema) (now : Nat) :
    Except BlogUpdateError Blog × List Blog :=
  if !blogAdminCheck current_user then
    (Except.error BlogUpdateError.forbidden403, blogs)
  else
    match blogs.find? (fun b => b.id == blog_id) with
    | none => (Except.error BlogUpdateError.blogNotFound404, blogs)
    | some blog =>
      let res := update_content_section blog d.heading d.description d.sub_sections
      if !res.1 then
        (Except.error BlogUpdateError.sectionNotFound404, blogs)
      else
        let blog2 :=
          match d.new_heading with
          | none => res.2
          | some nh =>
            match get_content_section res.2 d.heading with
            | none => res.2
            | some _ =>
              { res.2 with
                  content := updateFirstSection d.heading
                    (fun s => { s with heading := nh }) res.2.content }
        (Except.ok { blog2 with updated_at := now }, saveBlog blogs blog2 now)

/-- A stored `JobOpening` document (app/models/openings.py), restricted to
the fields consulted by the application-creation handler: the unique
`job_id` natural key and the `is_active` status string
(`Active`/`Inactive`/`Closed`/`Draft`). -/
structure JobOpening where
  id : List Nat
  job_id : List Nat
  title : List Nat
  is_active : List Nat
deriving DecidableEq

/-- A stored `JobApplication` document (app/models/openings.py). -/
structure JobApplication where
  id : List Nat
  apply_for_available_jobs : Bool
  selected_job_id : Option (List Nat)
  title : List Nat
  first_name : List Nat
  surname : List Nat
  phone_number : List Nat
  email : List Nat
  street_address : List Nat
  street_address_line2 : Option (List Nat)
  city : List Nat
  state_province : List Nat
  postal_zip_code : List Nat
  highest_education : List Nat
  total_experience_years : List Nat
  current_last_employer : List Nat
  current_last_designation : List Nat
  cv_filename : Option (List Nat)
  cv_data : Option (List Nat)
  cv_size : Option (List Nat)
  status : List Nat
  created_at : Nat
  updated_at : Nat
deriving DecidableEq

/-- `JobApplicationCreateSchema` (app/schemas/openings.py lines 66-97). -/
structure JobApplicationCreateSchema where
  apply_for_available_jobs : Bool
  selected_job_id : Option (List Nat)
  title : List Nat
  first_name : List Nat
  surname : List Nat
  phone_number : List Nat
  email : List Nat
  street_address : List Nat
  street_address_line2 : Option (List Nat)
  city : List Nat
  state_province : List Nat
  postal_zip_code : List Nat
  highest_education : List Nat
  total_experience_years : List Nat
  current_last_employer : List Nat
  current_last_designation : List Nat
  cv_filename : Option (List Nat)
  cv_data : Option (List Nat)
  cv_size : Option (List Nat)
deriving DecidableEq

/-- Python truthiness of an `Optional[str]`: `None` and the empty string
are falsy. -/
def strTruthy : Option (List Nat) → Bool
  | none => false
  | some s => !s.isEmpty

/-- The HTTP 400 errors raised by `create_job_application`, one per raise
site, in source order: "Job ID is required when applying for available
jobs", "Job with ID '...' not found or not active", "You have already
applied for this job". -/
inductive CreateAppError where
  | jobIdRequired400
  | jobNotFoundOrInactive400
  | alreadyApplied400
deriving DecidableEq

/-- `create_job_application` (app/services/openings.py lines 564-655):
when applying for available jobs, requires a (truthy) job id, requires the
referenced job to exist with status `Active`, and rejects a duplicate
application with the same email and the same `selected_job_id`; otherwise
a new application document is stored. Returns the outcome together with
the resulting application collection. -/
def create_job_application (jobs : List JobOpening) (apps : List JobApplication)
    (newId : List Nat) (now : Nat) (d : JobApplicationCreateSchema) :
    Except CreateAppError JobApplication × List JobApplication :=
  if d.apply_for_available_jobs && !strTruthy d.selected_job_id then
    (Except.error CreateAppError.jobIdRequired400, apps)
  else if d.apply_for_available_jobs && strTruthy d.selected_job_id &&
      !((jobs.find? (fun j =>
          some j.job_id == d.selected_job_id && j.is_active == s2c "Active")).isSome) then
    (Except.error CreateAppError.jobNotFoundOrInactive400, apps)
  else if d.apply_for_available_jobs && strTruthy d.selected_job_id &&
      ((apps.find? (fun a =>
          a.email == d.email && a.selected_job_id == d.selected_job_id)).isSome) then
    (Except.error CreateAppError.alreadyApplied400, apps)
  else
    let newApp : JobApplication :=
      { id := newId
        apply_for_available_jobs := d.apply_for_available_jobs
        selected_job_id := d.selected_job_id
        title := d.title
        first_name := d.first_name
        surname := d.surname
        phone_number := d.phone_number
        email := d.email
        street_address := d.street_address
        street_address_line2 := d.street_address_line2
        city := d.city
        state_province := d.state_province
        postal_zip_code := d.postal_zip_code
        highest_education := d.highest_education
        total_experience_years := d.total_experience_years
        current_last_employer := d.current_last_employer
        current_last_designation := d.current_last_designation
        cv_filename := d.cv_filename
        cv_data := d.cv_data
        cv_size := d.cv_size
        status := s2c "Pending"
        created_at := now
        updated_at := now }
    (Except.ok newApp, apps ++ [newApp])

/-- The FastAPI `Query` declaration of a pagination parameter pair:
defaults and bounds as declared on a route. -/
structure PaginationDecl where
  pageDefault : Nat
  pageGe : Nat
  limitDefault : Nat
  limitGe : Nat
  limitLe : Nat
deriving DecidableEq

/-- Pagination declaration of `get_all_users`
(app/services/auth.py lines 231-232). -/
def getAllUsersPagination : PaginationDecl :=
  ⟨1, 1, 10, 1, 100⟩

/-- Pagination declaration of the public `get_blogs`
(app/services/blog.py lines 133-134). -/
def getBlogsPagination : PaginationDecl :=
  ⟨1, 1, 10, 1, 100⟩

/-- Pagination declaration of `get_all_blogs_admin`
(app/services/blog.py lines 177-178). -/
def getAllBlogsAdminPagination : PaginationDecl :=
  ⟨1, 1, 10, 1, 100⟩

/-- Pagination declaration of the public `get_job_openings`
(app/services/openings.py lines 157-158): the limit default is 5. -/
def getJobOpeningsPagination : PaginationDecl :=
  ⟨1, 1, 5, 1, 100⟩

/-- Pagination declaration of `advanced_search_jobs`
(app/services/openings.py lines 493-494). -/
def advancedSearchJobsPagination : PaginationDecl :=
  ⟨1, 1, 10, 1, 100⟩

/-- Pagination declaration of `get_job_applications`
(app/services/openings.py lines 659-660). -/
def getJobApplicationsPagination : PaginationDecl :=
  ⟨1, 1, 10, 1, 100⟩

/-- Pagination declaration of the public project list
(app/services/projects.py lines 103-104). -/
def getProjectsPagination : PaginationDecl :=
  ⟨1, 1, 10, 1, 100⟩

/-- Pagination declaration of the admin project list
(app/services/projects.py lines 159-160). -/
def getProjectsAdminPagination : PaginationDecl :=
  ⟨1, 1, 10, 1, 100⟩

/-- The offset computation `skip = (page - 1) * limit` shared verbatim by
every paginated list handler (auth.py line 266, blog.py lines 147 and 219,
openings.py lines 165, 519 and 688, projects.py lines 116 and 193). -/
def handlerSkip (page limit : Nat) : Nat :=
  (page - 1) * limit

/-- The page slice produced by `.skip(skip).limit(limit)` over an ordered
query result. -/
def pageSlice (page limit : Nat) (l : List α) : List α :=
  (l.drop (handlerSkip page limit)).take limit

/-- Test fixture: a stored user record with the given email, role, active
flag and (already hashed) password. -/
def sampleUser (email : String) (role : UserRoles) (active : Bool)
    (pw : String) : UserRec where
  id := s2c "id1"
  first_name := s2c "Ada"
  last_name := s2c "Lovelace"
  email := s2c email
  password := s2c pw
  phone := s2c "1234567890"
  role := role
  is_active := active
  created_at := 0
  updated_at := 0

/-- Test fixture: a valid signup request carrying the admin role. -/
def sampleSignup : UserSignupSchema where
  first_name := s2c "Ada"
  last_name := s2c "Lovelace"
  email := s2c "Ada@Example.com"
  password := s2c "secret"
  phone := s2c "1234567890"
  role := UserRoles.admin

/-- Test fixture: the user record stored by a successful `signup` of
`sampleSignup` with identity hashing, id `id2` and time 0. -/
def sampleSignupStoredUser : UserRec where
  id := s2c "id2"
  first_name := s2c "Ada"
  last_name := s2c "Lovelace"
  email := pyLower (s2c "Ada@Example.com")
  password := s2c "secret"
  phone := s2c "1234567890"
  role := UserRoles.admin
  is_active := false
  created_at := 0
  updated_at := 0

/-- Test fixture: a stored blog with a single content section. -/
def sampleBlog : Blog where
  id := s2c "b1"
  title := s2c "Post"
  slug := s2c "post"
  excerpt := s2c "ex"
  content := [{ heading := s2c "Intro", description := s2c "d", sub_sections := [] }]
  image := none
  author := s2c "Ada"
  author_bio := none
  author_image := none
  published_at := 0
  tags := []
  is_published := s2c "draft"
  created_at := 0
  updated_at := 0

/-- Test fixture: an active job opening with job id `JD-0001`. -/
def sampleJob : JobOpening where
  id := s2c "j1"
  job_id := s2c "JD-0001"
  title := s2c "Nurse"
  is_active := s2c "Active"

/-- Test fixture: a stored application of `jo@example.com` to `JD-0001`. -/
def sampleApplication : JobApplication where
  id := s2c "a1"
  apply_for_available_jobs := true
  selected_job_id := some (s2c "JD-0001")
  title := s2c "Mr."
  first_name := s2c "Jo"
  surname := s2c "Doe"
  phone_number := s2c "1234567890"
  email := s2c "jo@example.com"
  street_address := s2c "1 Main St"
  street_address_line2 := none
  city := s2c "Pune"
  state_province := s2c "MH"
  postal_zip_code := s2c "411001"
  highest_education := s2c "MSc"
  total_experience_years := s2c "5"
  current_last_employer := s2c "Acme"
  current_last_designation := s2c "Engineer"
  cv_filename := none
  cv_data := none
  cv_size := none
  status := s2c "Pending"
  created_at := 0
  updated_at := 0

/-- Test fixture: a second application request by the same applicant for
the same job id `JD-0001`. -/
def sampleApplicationRequest : JobApplicationCreateSchema where
  apply_for_available_jobs := true
  selected_job_id := some (s2c "JD-0001")
  title := s2c "Mr."
  first_name := s2c "Jo"
  surname := s2c "Doe"
  phone_number := s2c "1234567890"
  email := s2c "jo@example.com"
  street_address := s2c "1 Main St"
  street_address_line2 := none
  city := s2c "Pune"
  state_province := s2c "MH"
  postal_zip_code := s2c "411001"
  highest_education := s2c "MSc"
  total_experience_years := s2c "5"
  current_last_employer := s2c "Acme"
  current_last_designation := s2c "Engineer"
  cv_filename := none
  cv_data := none
  cv_size := none

/-- Test fixture: a content-section update request for a heading that no
section of `sampleBlog` carries. -/
def sampleSectionQuery : ContentSectionUpdateSchema where
  heading := s2c "Other"
  description := some (s2c "nd")
  sub_sections := none
  new_heading := none

/-! ### Theorems -/

/-- C1: for every configuration, password-verification function and
stored user collection (covering no stored users, a stored user with the
superuser's email, and inactive or non-admin stored users), a login with
exactly the configured superuser email and password succeeds:
`authenticate_user` resolves to the superuser identity without consulting
the collection, and `login` returns a token whose subject is the
superuser email together with an admin, active user shape. -/
theorem superuser_login_always_succeeds (cfg : Config)
    (verify : List Nat → List Nat → Bool) (db : List UserRec) (now : Nat) :
    authenticate_user cfg verify db cfg.SUPERUSER_EMAIL cfg.SUPERUSER_PASSWORD
      = some (AuthUser.superuser (superUser cfg))
    ∧ login cfg verify db now cfg.SUPERUSER_EMAIL cfg.SUPERUSER_PASSWORD
      = Except.ok
          { access_token := create_access_token cfg.SUPERUSER_EMAIL
            token_type := s2c "bearer"
            user := superuserLoginResponse cfg now }
    ∧ (create_access_token cfg.SUPERUSER_EMAIL).sub = cfg.SUPERUSER_EMAIL
    ∧ (superuserLoginResponse cfg now).role = UserRoles.admin
    ∧ (superuserLoginResponse cfg now).is_active = true
    ∧ (superuserLoginResponse cfg now).email = cfg.SUPERUSER_EMAIL := by
  refine ⟨?_, ?_, rfl, rfl, rfl, rfl⟩
  · simp [authenticate_user]
  · simp [login, authenticate_user, superUser]

/-- C2 counterexample: the stored-user state may contain a non-admin user
holding the configured superuser email; submitting that user's email with
the superuser password makes `login` return a token (the superuser
bypass fires before `authenticate_user` could report a failure), so a
stored non-admin user plus a password yielding a token exists. -/
theorem nonadmin_user_login_counterexample :
    (sampleUser "admin@sevenhealerconsultants.in" UserRoles.user true "pw").role
        ≠ UserRoles.admin
    ∧ login defaultConfig (fun _ _ => false)
        [sampleUser "admin@sevenhealerconsultants.in" UserRoles.user true "pw"] 0
        (sampleUser "admin@sevenhealerconsultants.in" UserRoles.user true "pw").email
        (s2c "admin123")
      = Except.ok
          { access_token := create_access_token (s2c "admin@sevenhealerconsultants.in")
            token_type := s2c "bearer"
            user := superuserLoginResponse defaultConfig 0 } := by
  constructor
  · decide
  · rfl

/-- C2 (amended): unless the submitted credentials are exactly the
configured superuser email and password (in which case the superuser
identity receives the token), a stored non-admin user never yields a
token: when the user is active and the password verifies the handler
raises 403 at the role/active check, and in every other case
`authenticate_user` reports a failure and the handler raises 401; in
general a token is only ever issued for the superuser credentials or for
a stored user that is an active admin. -/
theorem nonadmin_user_never_gets_token (cfg : Config)
    (verify : List Nat → List Nat → Bool) (db : List UserRec) (now : Nat) :
    (∀ e p u, ¬(e = cfg.SUPERUSER_EMAIL ∧ p = cfg.SUPERUSER_PASSWORD) →
      usersFirstByEmail db (pyLower e) = some u → u.role ≠ UserRoles.admin →
      ((u.is_active = true ∧ verify p u.password = true →
          login cfg verify db now e p = Except.error LoginError.forbidden403)
        ∧ (¬(u.is_active = true ∧ verify p u.password = true) →
          login cfg verify db now e p = Except.error LoginError.unauthorized401)))
    ∧ (∀ e p resp, login cfg verify db now e p = Except.ok resp →
        (e = cfg.SUPERUSER_EMAIL ∧ p = cfg.SUPERUSER_PASSWORD)
        ∨ (∃ u, usersFirstByEmail db (pyLower e) = some u
            ∧ u.role = UserRoles.admin ∧ u.is_active = true)) := by
  constructor
  · intro e p u hns hu hrole
    constructor
    · rintro ⟨hact, hver⟩
      simp [login, authenticate_user, if_neg hns, hu, hact, hver, hrole]
    · intro hnot
      rcases Bool.eq_false_or_eq_true u.is_active with hact | hact
      · have hver : verify p u.password = false := by
          rcases Bool.eq_false_or_eq_true (verify p u.password) with hv | hv
          · exact absurd ⟨hact, hv⟩ hnot
          · exact hv
        simp [login, authenticate_user, if_neg hns, hu, hact, hver]
      · simp [login, authenticate_user, if_neg hns, hu, hact]
  · intro e p resp h
    by_cases hns : e = cfg.SUPERUSER_EMAIL ∧ p = cfg.SUPERUSER_PASSWORD
    · exact Or.inl hns
    · right
      rw [login, authenticate_user, if_neg hns] at h
      cases hu : usersFirstByEmail db (pyLower e) with
      | none =>
        rw [hu] at h
        exact absurd h (by simp)
      | some u =>
        rw [hu] at h
        rcases Bool.eq_false_or_eq_true u.is_active with hact | hact
        · rcases Bool.eq_false_or_eq_true (verify p u.password) with hver | hver
          · simp [hact, hver] at h
            by_cases hrole : u.role = UserRoles.admin
            · exact ⟨u, rfl, hrole, hact⟩
            · simp [hrole] at h
          · simp [hact, hver] at h
        · simp [hact] at h

/-- C2 witness: an active, non-admin stored user with the correct
password is refused with 403 by `login`, and an inactive one with 401. -/
theorem nonadmin_user_never_gets_token_witness :
    login defaultConfig (fun p h => p == h) [sampleUser "eve@example.com" UserRoles.user true "pw"]
        0 (s2c "eve@example.com") (s2c "pw")
      = Except.error LoginError.forbidden403
    ∧ login defaultConfig (fun p h => p == h)
        [sampleUser "eve@example.com" UserRoles.user false "pw"]
        0 (s2c "eve@example.com") (s2c "pw")
      = Except.error LoginError.unauthorized401 := by
  constructor
  · exact ((nonadmin_user_never_gets_token defaultConfig (fun p h => p == h)
      [sampleUser "eve@example.com" UserRoles.user true "pw"] 0).1
      (s2c "eve@example.com") (s2c "pw")
      (sampleUser "eve@example.com" UserRoles.user true "pw")
      (by decide) (by decide) (by decide)).1 (by decide)
  · exact ((nonadmin_user_never_gets_token defaultConfig (fun p h => p == h)
      [sampleUser "eve@example.com" UserRoles.user false "pw"] 0).1
      (s2c "eve@example.com") (s2c "pw")
      (sampleUser "eve@example.com" UserRoles.user false "pw")
      (by decide) (by decide) (by decide)).2 (by decide)

/-- C7 counterexample: the public job-openings list declares a limit
default of 5, not the uniform 10 the claim states. -/
theorem pagination_default_counterexample :
    getJobOpeningsPagination.limitDefault = 5
    ∧ getJobOpeningsPagination.limitDefault ≠ 10 := by
  decide

/-- C7 (amended): every paginated list handler declares page ≥ 1 with
default 1 and limit in the range 1 to 100, and computes the offset as
skip = (page - 1) * limit; the limit default is 10 on every such handler
except the public job-openings list, whose declared default is 5. -/
theorem pagination_decls_uniform :
    getAllUsersPagination = ⟨1, 1, 10, 1, 100⟩
    ∧ getBlogsPagination = ⟨1, 1, 10, 1, 100⟩
    ∧ getAllBlogsAdminPagination = ⟨1, 1, 10, 1, 100⟩
    ∧ advancedSearchJobsPagination = ⟨1, 1, 10, 1, 100⟩
    ∧ getJobApplicationsPagination = ⟨1, 1, 10, 1, 100⟩
    ∧ getProjectsPagination = ⟨1, 1, 10, 1, 100⟩
    ∧ getProjectsAdminPagination = ⟨1, 1, 10, 1, 100⟩
    ∧ getJobOpeningsPagination = ⟨1, 1, 5, 1, 100⟩
    ∧ (∀ page limit : Nat, handlerSkip page limit = (page - 1) * limit)
    ∧ (∀ page limit : Nat, ∀ l : List Nat,
        pageSlice page limit l = (l.drop ((page - 1) * limit)).take limit) := by
  refine ⟨rfl, rfl, rfl, rfl, rfl, rfl, rfl, rfl, fun _ _ => rfl, fun _ _ _ => rfl⟩

/-- C9: the admin authorization gate never consults the active flag: a
stored admin user resolved from a valid token is returned by
`get_current_user` even when inactive, and `validate_admin_permissions`
accepts it, so a deactivated administrator passes every admin-gated
operation while the token is valid. -/
theorem admin_gate_ignores_active_flag (cfg : Config) (db : List UserRec)
    (u : UserRec)
    (hfind : usersFirstByEmail db u.email = some u)
    (hne : u.email ≠ cfg.SUPERUSER_EMAIL)
    (hrole : u.role = UserRoles.admin)
    (hinactive : u.is_active = false) :
    get_current_user cfg db (JwtDecoded.payload (some u.email))
      = some (AuthUser.stored u)
    ∧ validate_admin_permissions (AuthUser.stored u) = true
    ∧ u.is_active = false := by
  refine ⟨?_, ?_, hinactive⟩
  · simp [get_current_user, if_neg hne, hfind]
  · simp [validate_admin_permissions, hrole]

/-- C9 witness: a deactivated stored admin still resolves from a token
and passes the admin gate. -/
theorem admin_gate_ignores_active_flag_witness :
    get_current_user defaultConfig
        [sampleUser "bob@example.com" UserRoles.admin false "pw"]
        (JwtDecoded.payload (some (s2c "bob@example.com")))
      = some (AuthUser.stored (sampleUser "bob@example.com" UserRoles.admin false "pw"))
    ∧ validate_admin_permissions
        (AuthUser.stored (sampleUser "bob@example.com" UserRoles.admin false "pw")) = true
    ∧ (sampleUser "bob@example.com" UserRoles.admin false "pw").is_active = false := by
  exact admin_gate_ignores_active_flag defaultConfig
    [sampleUser "bob@example.com" UserRoles.admin false "pw"]
    (sampleUser "bob@example.com" UserRoles.admin false "pw")
    (by decide) (by decide) (by decide) (by decide)

/-- C10: signup stores the caller-supplied role verbatim: a successful
signup with role admin stores an (inactive) admin record that the admin
gate accepts as soon as it is activated, and the schema's role default is
`user` only when the field is omitted. -/
theorem signup_stores_caller_role (hash : List Nat → List Nat)
    (db : List UserRec) (newId : List Nat) (now : Nat) (d : UserSignupSchema)
    (out : List UserRec) (resp : UserResponseSchema)
    (h : signup hash db newId now d = Except.ok (out, resp)) :
    (∃ u, out = db ++ [u] ∧ u.role = d.role ∧ u.is_active = false
      ∧ validate_admin_permissions (AuthUser.stored { u with is_active := true })
          = decide (d.role = UserRoles.admin))
    ∧ parseSignupRole none = UserRoles.user := by
  refine ⟨?_, rfl⟩
  rcases Bool.eq_false_or_eq_true (emailRegexMatch d.email) with he | he
  · rcases Bool.eq_false_or_eq_true (phoneRegexMatch d.phone) with hp | hp
    · cases hdb : usersFirstByEmail db (pyLower d.email) with
      | none =>
        rw [signup] at h
        simp [he, hp, hdb] at h
        exact ⟨_, h.1.symm, rfl, rfl, by simp [validate_admin_permissions]⟩
      | some u0 =>
        rw [signup] at h
        simp [he, hp, hdb] at h
    · rw [signup] at h
      simp [he, hp] at h
  · rw [signup] at h
    simp [he] at h

/-- C10 witness: a concrete valid signup carrying role admin stores an
inactive admin record, and the omitted-role default is user. -/
theorem signup_stores_caller_role_witness :
    (∃ u, [sampleSignupStoredUser] = ([] : List UserRec) ++ [u]
      ∧ u.role = sampleSignup.role ∧ u.is_active = false
      ∧ validate_admin_permissions (AuthUser.stored { u with is_active := true })
          = decide (sampleSignup.role = UserRoles.admin))
    ∧ parseSignupRole none = UserRoles.user :=
  signup_stores_caller_role (fun p => p) [] (s2c "id2") 0 sampleSignup
    [sampleSignupStoredUser] (userResponseOf sampleSignupStoredUser) (by rfl)

/-- C8: a successful signup stores the user inactive with the hashed (not
plaintext) password, the response is exactly the public user shape (a
record with no password field), and the response is unchanged if the
submitted password is replaced by any other, so the plaintext password is
never retrievable from the response. -/
theorem signup_never_leaks_password (hash : List Nat → List Nat)
    (db : List UserRec) (newId : List Nat) (now : Nat) (d : UserSignupSchema)
    (out : List UserRec) (resp : UserResponseSchema)
    (h : signup hash db newId now d = Except.ok (out, resp)) :
    (∃ u, out = db ++ [u] ∧ u.is_active = false ∧ u.password = hash d.password
      ∧ resp = userResponseOf u)
    ∧ (∀ p2, ∃ out2,
        signup hash db newId now { d with password := p2 } = Except.ok (out2, resp)) := by
  rcases Bool.eq_false_or_eq_true (emailRegexMatch d.email) with he | he
  · rcases Bool.eq_false_or_eq_true (phoneRegexMatch d.phone) with hp | hp
    · cases hdb : usersFirstByEmail db (pyLower d.email) with
      | none =>
        rw [signup] at h
        simp [he, hp, hdb] at h
        constructor
        · exact ⟨_, h.1.symm, rfl, rfl, h.2.symm⟩
        · intro p2
          refine Exists.intro (db ++ [UserRec.mk newId d.first_name d.last_name
            (pyLower d.email) (hash p2) d.phone d.role false now now]) ?_
          rw [signup]
          simp [he, hp, hdb]
          exact h.2
      | some u0 =>
        rw [signup] at h
        simp [he, hp, hdb] at h
    · rw [signup] at h
      simp [he, hp] at h
  · rw [signup] at h
    simp [he] at h

/-- C8 witness: the conclusion at a concrete valid signup. -/
theorem signup_never_leaks_password_witness :
    (∃ u, [sampleSignupStoredUser] = ([] : List UserRec) ++ [u]
      ∧ u.is_active = false ∧ u.password = (fun p => p) sampleSignup.password
      ∧ userResponseOf sampleSignupStoredUser = userResponseOf u)
    ∧ (∀ p2, ∃ out2,
        signup (fun p => p) [] (s2c "id2") 0 { sampleSignup with password := p2 }
          = Except.ok (out2, userResponseOf sampleSignupStoredUser)) :=
  signup_never_leaks_password (fun p => p) [] (s2c "id2") 0 sampleSignup
    [sampleSignupStoredUser] (userResponseOf sampleSignupStoredUser) (by rfl)

/-- C5: when no content section of the blog matches the requested heading
case-insensitively, `Blog.update_content_section` returns False without
mutating anything, and the route handler answers 404 before saving, so
the stored blog collection (timestamps included) is unchanged. -/
theorem update_missing_section_leaves_blog_unchanged (user : AuthUser)
    (blogs : List Blog) (b : Blog) (d : ContentSectionUpdateSchema) (now : Nat)
    (hadmin : blogAdminCheck user = true)
    (hfind : blogs.find? (fun x => x.id == b.id) = some b)
    (hnone : ∀ s ∈ b.content, headingMatches d.heading s = false) :
    update_content_section b d.heading d.description d.sub_sections = (false, b)
    ∧ updateContentSectionHandler user blogs b.id d now
      = (Except.error BlogUpdateError.sectionNotFound404, blogs) := by
  have hg : get_content_section b d.heading = none := by
    rw [get_content_section]
    exact List.find?_eq_none.mpr (fun s hs => by simp [hnone s hs])
  constructor
  · rw [update_content_section, hg]
  · rw [updateContentSectionHandler]
    simp [hadmin, hfind, update_content_section, hg]

/-- C5 witness: the conclusion at a concrete blog and missing heading. -/
theorem update_missing_section_leaves_blog_unchanged_witness :
    update_content_section sampleBlog sampleSectionQuery.heading
        sampleSectionQuery.description sampleSectionQuery.sub_sections
      = (false, sampleBlog)
    ∧ updateContentSectionHandler (AuthUser.superuser (superUser defaultConfig))
        [sampleBlog] sampleBlog.id sampleSectionQuery 7
      = (Except.error BlogUpdateError.sectionNotFound404, [sampleBlog]) :=
  update_missing_section_leaves_blog_unchanged
    (AuthUser.superuser (superUser defaultConfig)) [sampleBlog] sampleBlog
    sampleSectionQuery 7 (by decide) (by decide) (by decide)

/-- C6 counterexample: with a stored application for the same email and
job id but no currently Active job under that id (the opening was closed
or deleted after the first application), the second request fails with
the job-validation 400 error, not the "You have already applied for this
job" conflict error the claim states. -/
theorem duplicate_application_counterexample :
    sampleApplication.email = sampleApplicationRequest.email
    ∧ sampleApplication.selected_job_id = sampleApplicationRequest.selected_job_id
    ∧ sampleApplicationRequest.apply_for_available_jobs = true
    ∧ create_job_application [] [sampleApplication] (s2c "a2") 0 sampleApplicationRequest
      = (Except.error CreateAppError.jobNotFoundOrInactive400, [sampleApplication])
    ∧ CreateAppError.jobNotFoundOrInactive400 ≠ CreateAppError.alreadyApplied400 := by
  refine ⟨rfl, rfl, rfl, by rfl, by decide⟩

/-- C6 (amended): provided the referenced job id is non-empty and a job
with that id is currently stored with status Active, a second
create-application request with the same email and the same
`selected_job_id` as a stored application fails with the
"You have already applied for this job" conflict (HTTP 400) and stores no
new application document. -/
theorem duplicate_application_conflict (jobs : List JobOpening)
    (apps : List JobApplication) (newId : List Nat) (now : Nat)
    (d : JobApplicationCreateSchema) (a : JobApplication)
    (happly : d.apply_for_available_jobs = true)
    (hjid : strTruthy d.selected_job_id = true)
    (hjob : (jobs.find? (fun j =>
        some j.job_id == d.selected_job_id && j.is_active == s2c "Active")).isSome = true)
    (ha : a ∈ apps) (hemail : a.email = d.email)
    (hsel : a.selected_job_id = d.selected_job_id) :
    create_job_application jobs apps newId now d
      = (Except.error CreateAppError.alreadyApplied400, apps) := by
  have hdup : (apps.find? (fun x =>
      x.email == d.email && x.selected_job_id == d.selected_job_id)).isSome = true := by
    rw [List.find?_isSome]
    exact ⟨a, ha, by simp [hemail, hsel]⟩
  rw [create_job_application]
  simp [happly, hjid, hjob, hdup]

/-- C6 witness: the conclusion at a concrete duplicate application with
the referenced job still Active. -/
theorem duplicate_application_conflict_witness :
    create_job_application [sampleJob] [sampleApplication] (s2c "a2") 0
        sampleApplicationRequest
      = (Except.error CreateAppError.alreadyApplied400, [sampleApplication]) :=
  duplicate_application_conflict [sampleJob] [sampleApplication] (s2c "a2") 0
    sampleApplicationRequest sampleApplication
    (by decide) (by decide) (by decide) (by decide) (by decide) (by decide)

/-- Lowercasing a character twice is the same as lowercasing it once. -/
theorem lowC_idem (c : Nat) : lowC (lowC c) = lowC c := by
  by_cases h : 65 ≤ c ∧ c ≤ 90
  · simp only [lowC, if_pos h]
    rw [if_neg (by omega)]
  · simp only [lowC, if_neg h]

/-- Characters of the collapsed string are hyphens or non-`[-\s]`
characters of the input. -/
theorem mem_collapseAux (c : Nat) (l : List Nat) : ∀ b, c ∈ collapseAux b l →
    c = 45 ∨ (c ∈ l ∧ isDashSpace c = false) := by
  induction l with
  | nil => intro b h; simp [collapseAux] at h
  | cons x rest ih =>
    intro b h
    rw [collapseAux] at h
    by_cases hx : isDashSpace x = true
    · rw [if_pos hx] at h
      cases b with
      | true =>
        simp only [if_pos] at h
        rcases ih true h with h45 | ⟨hm, hds⟩
        · exact Or.inl h45
        · exact Or.inr ⟨List.mem_cons_of_mem x hm, hds⟩
      | false =>
        simp only [Bool.false_eq_true, if_false] at h
        rcases List.mem_cons.mp h with hc | h2
        · exact Or.inl hc
        · rcases ih true h2 with h45 | ⟨hm, hds⟩
          · exact Or.inl h45
          · exact Or.inr ⟨List.mem_cons_of_mem x hm, hds⟩
    · rw [if_neg hx] at h
      rcases List.mem_cons.mp h with hc | h2
      · subst hc
        exact Or.inr ⟨List.mem_cons_self c rest, by simpa using hx⟩
      · rcases ih false h2 with h45 | ⟨hm, hds⟩
        · exact Or.inl h45
        · exact Or.inr ⟨List.mem_cons_of_mem x hm, hds⟩

/-- Collapsing with a pending run never emits a `[-\s]` head. -/
theorem headNotDS_collapseAux (l : List Nat) :
    headNotDS (collapseAux true l) = true := by
  induction l with
  | nil => rfl
  | cons x rest ih =>
    rw [collapseAux]
    by_cases hx : isDashSpace x = true
    · rw [if_pos hx, if_pos rfl]
      exact ih
    · rw [if_neg hx]
      simp [headNotDS, hx]

/-- A head other than a hyphen satisfies `pairOk` against any tail. -/
theorem pairOk_of_ne45 (c : Nat) (l : List Nat) (h : (c == 45) = false) :
    pairOk c l = true := by
  cases l with
  | nil => rfl
  | cons d t => simp [pairOk, h]

/-- Components of a false `isDashSpace` test. -/
theorem isDashSpace_false_parts (c : Nat) (h : isDashSpace c = false) :
    (c == 45) = false ∧ isSpaceCode c = false := by
  rw [isDashSpace] at h
  cases h1 : (c == 45) with
  | true => rw [h1] at h; simp at h
  | false =>
    cases h2 : isSpaceCode c with
    | true => rw [h1, h2] at h; simp at h
    | false => exact ⟨rfl, rfl⟩

/-- Components of a true `collapsedB` test on a cons cell. -/
theorem collapsedB_parts (x : Nat) (rest : List Nat)
    (h : collapsedB (x :: rest) = true) :
    isSpaceCode x = false ∧ pairOk x rest = true ∧ collapsedB rest = true := by
  rw [collapsedB] at h
  have h1 := (Bool.and_eq_true _ _).mp h
  have h2 := (Bool.and_eq_true _ _).mp h1.1
  exact ⟨by simpa using h2.1, h2.2, h1.2⟩

/-- The collapsing substitution yields a space-free string with no two
adjacent hyphens. -/
theorem collapsedB_collapseAux (l : List Nat) : ∀ b,
    collapsedB (collapseAux b l) = true := by
  induction l with
  | nil => intro b; rfl
  | cons x rest ih =>
    intro b
    rw [collapseAux]
    by_cases hx : isDashSpace x = true
    · rw [if_pos hx]
      cases b with
      | true => simpa using ih true
      | false =>
        simp only [Bool.false_eq_true, if_false]
        have hX := headNotDS_collapseAux rest
        rw [collapsedB]
        refine (Bool.and_eq_true _ _).mpr ⟨(Bool.and_eq_true _ _).mpr ⟨by decide, ?_⟩, ih true⟩
        cases hc : collapseAux true rest with
        | nil => rfl
        | cons y t =>
          rw [hc, headNotDS] at hX
          have hyds : isDashSpace y = false := by simpa using hX
          have hy45 : (y == 45) = false := (isDashSpace_false_parts y hyds).1
          simp [pairOk, hy45]
    · rw [if_neg hx]
      have hxds : isDashSpace x = false := by simpa using hx
      obtain ⟨hx45, hxs⟩ := isDashSpace_false_parts x hxds
      rw [collapsedB]
      exact (Bool.and_eq_true _ _).mpr
        ⟨(Bool.and_eq_true _ _).mpr ⟨by simp [hxs], pairOk_of_ne45 x _ hx45⟩, ih false⟩

/-- A collapsed string is unchanged by a further collapsing pass. -/
theorem collapseAux_eq_self (l : List Nat) : ∀ b, collapsedB l = true →
    (b = true → headNotDS l = true) → collapseAux b l = l := by
  induction l with
  | nil => intro b _ _; rfl
  | cons x rest ih =>
    intro b hc hb
    obtain ⟨hxs, hp, hrest⟩ := collapsedB_parts x rest hc
    rw [collapseAux]
    by_cases hx : isDashSpace x = true
    · have hx45 : (x == 45) = true := by
        rw [isDashSpace, hxs] at hx
        simpa using hx
      have hbf : b = false := by
        cases b with
        | false => rfl
        | true =>
          exfalso
          have hh := hb rfl
          rw [headNotDS, hx] at hh
          simp at hh
      subst hbf
      rw [if_pos hx]
      simp only [Bool.false_eq_true, if_false]
      have hx45e : x = 45 := by simpa using hx45
      have hrec : collapseAux true rest = rest := by
        refine ih true hrest (fun _ => ?_)
        cases rest with
        | nil => rfl
        | cons y t =>
          simp only [pairOk] at hp
          rw [hx45] at hp
          simp only [Bool.true_and] at hp
          have hy45 : (y == 45) = false := by simpa using hp
          have hys : isSpaceCode y = false := (collapsedB_parts y t hrest).1
          simp [headNotDS, isDashSpace, hy45, hys]
      rw [hrec, hx45e]
    · rw [if_neg hx]
      rw [ih false hrest (fun h => absurd h (by simp))]

/-- Membership is preserved from the trailing-strip output to its input. -/
theorem mem_dropTrailingDashes (c : Nat) (l : List Nat)
    (h : c ∈ dropTrailingDashes l) : c ∈ l := by
  induction l with
  | nil => simp [dropTrailingDashes] at h
  | cons x rest ih =>
    rw [dropTrailingDashes] at h
    split at h
    · simp at h
    · rcases List.mem_cons.mp h with hc | h2
      · exact hc ▸ List.mem_cons_self x rest
      · exact List.mem_cons_of_mem x (ih h2)

/-- Membership is preserved from the leading-strip output to its input. -/
theorem mem_dropWhile (p : Nat → Bool) (c : Nat) (l : List Nat)
    (h : c ∈ l.dropWhile p) : c ∈ l := by
  induction l with
  | nil => simp at h
  | cons x rest ih =>
    rw [List.dropWhile] at h
    split at h
    · exact List.mem_cons_of_mem x (ih h)
    · exact h

/-- The trailing strip keeps the head of the string, when any remains. -/
theorem pairOk_dropTrailingDashes (c : Nat) (l : List Nat)
    (h : pairOk c l = true) : pairOk c (dropTrailingDashes l) = true := by
  cases l with
  | nil => exact h
  | cons x rest =>
    rw [dropTrailingDashes]
    split
    · rfl
    · exact h

/-- Collapsedness is preserved by the trailing strip. -/
theorem collapsedB_dropTrailingDashes (l : List Nat)
    (h : collapsedB l = true) : collapsedB (dropTrailingDashes l) = true := by
  induction l with
  | nil => exact h
  | cons x rest ih =>
    obtain ⟨hxs, hp, hrest⟩ := collapsedB_parts x rest h
    rw [dropTrailingDashes]
    split
    · rfl
    · rw [collapsedB]
      exact (Bool.and_eq_true _ _).mpr
        ⟨(Bool.and_eq_true _ _).mpr ⟨by simp [hxs], pairOk_dropTrailingDashes x rest hp⟩,
          ih hrest⟩

/-- Collapsedness is preserved by the leading strip. -/
theorem collapsedB_dropWhile45 (l : List Nat) (h : collapsedB l = true) :
    collapsedB (l.dropWhile (fun c => c == 45)) = true := by
  induction l with
  | nil => exact h
  | cons x rest ih =>
    obtain ⟨hxs, hp, hrest⟩ := collapsedB_parts x rest h
    rw [List.dropWhile]
    split
    · exact ih hrest
    · exact h

/-- The leading strip leaves no hyphen at the head. -/
theorem headNot45_dropWhile45 (l : List Nat) :
    headNot45 (l.dropWhile (fun c => c == 45)) = true := by
  induction l with
  | nil => rfl
  | cons x rest ih =>
    rw [List.dropWhile]
    split
    · exact ih
    · rename_i hx
      simp only [headNot45]
      simpa using hx

/-- The trailing strip keeps a non-hyphen head. -/
theorem headNot45_dropTrailingDashes (l : List Nat)
    (h : headNot45 l = true) : headNot45 (dropTrailingDashes l) = true := by
  cases l with
  | nil => exact h
  | cons x rest =>
    rw [dropTrailingDashes]
    split
    · rfl
    · exact h

/-- The leading strip is the identity on strings with a non-hyphen head. -/
theorem dropWhile45_eq_self (l : List Nat) (h : headNot45 l = true) :
    l.dropWhile (fun c => c == 45) = l := by
  cases l with
  | nil => rfl
  | cons x rest =>
    rw [headNot45] at h
    rw [List.dropWhile]
    simp only [Bool.not_eq_true'] at h
    simp [h]

/-- The trailing strip is idempotent. -/
theorem dropTrailingDashes_idem (l : List Nat) :
    dropTrailingDashes (dropTrailingDashes l) = dropTrailingDashes l := by
  induction l with
  | nil => rfl
  | cons x rest ih =>
    rw [dropTrailingDashes]
    split
    · rfl
    · rename_i hcond
      rw [dropTrailingDashes, ih, if_neg hcond]

/-- C3: `generate_slug` maps "Hello, World!  Foo" to "hello-world-foo",
and applying `generate_slug` twice gives the same result as applying it
once (idempotence), where `generate_slug` lowercases, strips characters
outside word/space/hyphen, collapses whitespace/hyphen runs to single
hyphens and trims leading and trailing hyphens. -/
theorem generate_slug_example_and_idempotent :
    generate_slug (s2c "Hello, World!  Foo") = s2c "hello-world-foo"
    ∧ ∀ t : List Nat, generate_slug (generate_slug t) = generate_slug t := by
  constructor
  · decide
  · intro t
    have hmem : ∀ c ∈ generate_slug t, lowC c = c ∧ keepCode c = true := by
      intro c hc
      rw [generate_slug, pyStripDashes] at hc
      have hco : c ∈ collapseAux false ((pyLower t).filter keepCode) :=
        mem_dropWhile _ c _ (mem_dropTrailingDashes c _ hc)
      rcases mem_collapseAux c _ false hco with h45 | ⟨hmf, _⟩
      · subst h45
        exact ⟨by decide, by decide⟩
      · have hkeep := (List.mem_filter.mp hmf).2
        have hlow : c ∈ pyLower t := (List.mem_filter.mp hmf).1
        rw [pyLower] at hlow
        rcases List.mem_map.mp hlow with ⟨d, _, hd⟩
        exact ⟨hd ▸ lowC_idem d, hkeep⟩
    have hlowid : pyLower (generate_slug t) = generate_slug t := by
      rw [pyLower]
      have : ∀ l : List Nat, (∀ c ∈ l, lowC c = c) → l.map lowC = l := by
        intro l
        induction l with
        | nil => intro _; rfl
        | cons x rest ih =>
          intro hl
          rw [List.map_cons, hl x (List.mem_cons_self x rest),
            ih (fun c hc => hl c (List.mem_cons_of_mem x hc))]
      exact this _ (fun c hc => (hmem c hc).1)
    have hfilterid : (generate_slug t).filter keepCode = generate_slug t :=
      List.filter_eq_self.mpr (fun c hc => (hmem c hc).2)
    have hcollapsed : collapsedB (generate_slug t) = true := by
      rw [generate_slug, pyStripDashes, dropLeadingDashes]
      exact collapsedB_dropTrailingDashes _
        (collapsedB_dropWhile45 _ (collapsedB_collapseAux _ false))
    have hhead : headNot45 (generate_slug t) = true := by
      rw [generate_slug, pyStripDashes, dropLeadingDashes]
      exact headNot45_dropTrailingDashes _ (headNot45_dropWhile45 _)
    calc generate_slug (generate_slug t)
        = pyStripDashes (collapseAux false (generate_slug t)) := by
          rw [generate_slug, hlowid, hfilterid]
      _ = pyStripDashes (generate_slug t) := by
          rw [collapseAux_eq_self _ false hcollapsed (fun h => absurd h (by simp))]
      _ = generate_slug t := by
          rw [pyStripDashes, dropLeadingDashes, dropWhile45_eq_self _ hhead]
          rw [generate_slug, pyStripDashes]
          exact dropTrailingDashes_idem _

/-- The decimal digit list of `n` (with sufficient fuel) evaluates back
to `n`. -/
theorem ofRevDigits_revDigitsF : ∀ fuel n, n ≤ fuel →
    ofRevDigits (revDigitsF fuel n) = n := by
  intro fuel
  induction fuel with
  | zero =>
    intro n hn
    have hn0 : n = 0 := Nat.le_zero.mp hn
    subst hn0
    rfl
  | succ fuel ih =>
    intro n hn
    rw [revDigitsF]
    by_cases h0 : n = 0
    · rw [if_pos h0, h0]
      rfl
    · rw [if_neg h0, ofRevDigits, ih (n / 10) (by omega)]
      omega

/-- Decimal rendering of counters is injective. -/
theorem natStr_inj (m n : Nat) (h : natStr m = natStr n) : m = n := by
  rw [natStr, natStr] at h
  have h2 : (revDigitsF m m).reverse = (revDigitsF n n).reverse := by
    have hinj : Function.Injective (fun d : Nat => 48 + d) := by
      intro a b hab
      have h48 : 48 + a = 48 + b := hab
      omega
    exact List.map_injective_iff.mpr hinj h
  have h3 : revDigitsF m m = revDigitsF n n := List.reverse_injective h2
  have hm := ofRevDigits_revDigitsF m m (le_refl m)
  rw [← hm, h3, ofRevDigits_revDigitsF n n (le_refl n)]

/-- The candidate slugs tried by the collision loop are pairwise
distinct. -/
theorem slugCandidate_inj (orig : List Nat) :
    Function.Injective (slugCandidate orig) := by
  intro i j h
  rw [slugCandidate, slugCandidate] at h
  by_cases hi : i = 0
  · by_cases hj : j = 0
    · rw [hi, hj]
    · rw [if_pos hi, if_neg hj] at h
      have := congrArg List.length h
      simp at this
  · by_cases hj : j = 0
    · rw [if_neg hi, if_pos hj] at h
      have := congrArg List.length h
      simp at this
    · rw [if_neg hi, if_neg hj] at h
      have h2 := List.append_cancel_left h
      have h3 : natStr i = natStr j := by
        injection h2
      exact natStr_inj i j h3

/-- Pigeonhole: among the first `l.length + 1` candidate slugs, at least
one is outside the finite list `l`. -/
theorem exists_candidate_not_mem (orig : List Nat) (l : List (List Nat)) :
    ∃ j, j ≤ l.length ∧ slugCandidate orig j ∉ l := by
  by_contra hall
  push_neg at hall
  have hsub : ∀ x ∈ (List.range (l.length + 1)).map (slugCandidate orig), x ∈ l := by
    intro x hx
    rcases List.mem_map.mp hx with ⟨j, hj, rfl⟩
    exact hall j (Nat.lt_succ_iff.mp (List.mem_range.mp hj))
  have hnodup : ((List.range (l.length + 1)).map (slugCandidate orig)).Nodup :=
    (List.nodup_range _).map (slugCandidate_inj orig)
  have hcard1 : ((List.range (l.length + 1)).map (slugCandidate orig)).toFinset.card
      = l.length + 1 := by
    rw [List.toFinset_card_of_nodup hnodup, List.length_map, List.length_range]
  have hsubF : ((List.range (l.length + 1)).map (slugCandidate orig)).toFinset ⊆
      l.toFinset := by
    intro x hx
    exact List.mem_toFinset.mpr (hsub x (List.mem_toFinset.mp hx))
  have hcard2 := Finset.card_le_card hsubF
  have hcard3 := List.toFinset_card_le l
  omega

/-- Every taken slug is the slug of some non-excluded stored blog. -/
theorem blogSlugTaken_mem (blogs : List Blog) (exclude_id : Option (List Nat))
    (s : List Nat) (h : blogSlugTaken blogs exclude_id s = true) :
    s ∈ (blogs.filter (fun b =>
      match exclude_id with
      | none => true
      | some i => !(b.id == i))).map Blog.slug := by
  rw [blogSlugTaken] at h
  rw [List.find?_isSome] at h
  rcases h with ⟨b, hbmem, hp⟩
  exact List.mem_map.mpr ⟨b, hbmem, by simpa using hp⟩

/-- Characterisation of the collision loop: with enough fuel to reach a
free candidate, it returns the first free candidate at index at least
`k`, and every earlier candidate from `k` on was taken. -/
theorem ensureUniqueSlugAux_spec (taken : List Nat → Bool) (orig : List Nat) :
    ∀ fuel k, (∃ j, j < fuel ∧ taken (slugCandidate orig (k + j)) = false) →
    ∃ n, k ≤ n ∧ ensureUniqueSlugAux taken orig fuel k = slugCandidate orig n
      ∧ taken (slugCandidate orig n) = false
      ∧ ∀ m, k ≤ m → m < n → taken (slugCandidate orig m) = true := by
  intro fuel
  induction fuel with
  | zero =>
    intro k hex
    rcases hex with ⟨j, hj, _⟩
    exact absurd hj (Nat.not_lt_zero j)
  | succ fuel ih =>
    intro k hex
    rw [ensureUniqueSlugAux]
    cases ht : taken (slugCandidate orig k) with
    | false =>
      rw [if_neg (by simp)]
      exact ⟨k, le_refl k, rfl, ht, fun m h1 h2 => by omega⟩
    | true =>
      rw [if_pos rfl]
      have hex2 : ∃ j, j < fuel ∧ taken (slugCandidate orig (k + 1 + j)) = false := by
        rcases hex with ⟨j, hj, hf⟩
        cases j with
        | zero =>
          rw [Nat.add_zero, ht] at hf
          cases hf
        | succ j2 =>
          refine ⟨j2, by omega, ?_⟩
          rw [show k + 1 + j2 = k + (j2 + 1) by omega]
          exact hf
      rcases ih (k + 1) hex2 with ⟨n, hkn, heq, hfree, hmin⟩
      refine ⟨n, by omega, heq, hfree, ?_⟩
      intro m h1 h2
      rcases Nat.eq_or_lt_of_le h1 with he | hlt
      · rw [← he]
        exact ht
      · exact hmin m (by omega) h2

/-- C4: `ensure_unique_slug` returns the input slug when no other stored
blog holds it, and otherwise the candidate `slug-n` for the smallest
positive `n` whose candidate is free; the returned slug is always free
(the loop terminates within `blogs.length + 1` probes because the stored
slug set is finite), and two blogs deriving the same slug obtain `x` and
`x-1`. -/
theorem ensure_unique_slug_spec (blogs : List Blog)
    (exclude_id : Option (List Nat)) (slug : List Nat) :
    (blogSlugTaken blogs exclude_id slug = false →
      ensure_unique_slug blogs slug exclude_id = slug)
    ∧ (blogSlugTaken blogs exclude_id slug = true →
      ∃ n, 0 < n
        ∧ ensure_unique_slug blogs slug exclude_id = slugCandidate slug n
        ∧ blogSlugTaken blogs exclude_id (slugCandidate slug n) = false
        ∧ ∀ m, 0 < m → m < n →
            blogSlugTaken blogs exclude_id (slugCandidate slug m) = true)
    ∧ blogSlugTaken blogs exclude_id (ensure_unique_slug blogs slug exclude_id) = false
    ∧ ensure_unique_slug [] (s2c "post") none = s2c "post"
    ∧ ensure_unique_slug [sampleBlog] (s2c "post") none = s2c "post-1" := by
  have hexist : ∃ j, j < blogs.length + 1 ∧
      blogSlugTaken blogs exclude_id (slugCandidate slug j) = false := by
    set fl := (blogs.filter (fun b =>
      match exclude_id with
      | none => true
      | some i => !(b.id == i))).map Blog.slug with hfl
    obtain ⟨j, hj, hnot⟩ := exists_candidate_not_mem slug fl
    refine ⟨j, ?_, ?_⟩
    · have hlen : fl.length ≤ blogs.length := by
        rw [hfl, List.length_map]
        exact List.length_filter_le _ _
      omega
    · cases hb : blogSlugTaken blogs exclude_id (slugCandidate slug j) with
      | false => rfl
      | true =>
        refine absurd ?_ hnot
        rw [hfl]
        exact blogSlugTaken_mem blogs exclude_id _ hb
  obtain ⟨n, h0n, heq, hfree, hmin⟩ :=
    ensureUniqueSlugAux_spec (blogSlugTaken blogs exclude_id) slug
      (blogs.length + 1) 0 (by simpa using hexist)
  have hmain : ensure_unique_slug blogs slug exclude_id = slugCandidate slug n := by
    rw [ensure_unique_slug]
    exact heq
  have hcand0 : slugCandidate slug 0 = slug := by
    rw [slugCandidate, if_pos rfl]
  refine ⟨?_, ?_, ?_, by decide, by decide⟩
  · intro hf
    have hn0 : n = 0 := by
      by_contra hne
      have := hmin 0 (Nat.zero_le 0) (Nat.pos_of_ne_zero hne)
      rw [hcand0, hf] at this
      cases this
    rw [hmain, hn0, hcand0]
  · intro ht
    have hn0 : n ≠ 0 := by
      intro h
      rw [h, hcand0, ht] at hfree
      cases hfree
    exact ⟨n, Nat.pos_of_ne_zero hn0, hmain, hfree,
      fun m hm hmn => hmin m (Nat.zero_le m) hmn⟩
  · rw [hmain]
    exact hfree

/-- C4 witness: the characterisation at a slug with no collision and at
one with a single collision, where the loop yields `post-1`. -/
theorem ensure_unique_slug_spec_witness :
    ensure_unique_slug [] (s2c "post") none = s2c "post"
    ∧ (∃ n, 0 < n
        ∧ ensure_unique_slug [sampleBlog] (s2c "post") none
            = slugCandidate (s2c "post") n
        ∧ blogSlugTaken [sampleBlog] none (slugCandidate (s2c "post") n) = false
        ∧ ∀ m, 0 < m → m < n →
            blogSlugTaken [sampleBlog] none (slugCandidate (s2c "post") m) = true) := by
  constructor
  · exact (ensure_unique_slug_spec [] none (s2c "post")).1 (by decide)
  · exact (ensure_unique_slug_spec [sampleBlog] none (s2c "post")).2.1 (by decide)

end SevenHealer
